import Mathlib

/-
Verification of sz_simple_redoer (src/sz_simple_redoer.py): a shallow
embedding of the redo-processing main loop and proofs about its behaviour.

Modelling conventions:
- Wall-clock time is modelled as a rational number (seconds).  Every value
  that the Python code obtains from the outside world per loop iteration --
  time.time() readings, the governor's decision, the record source's
  responses, the completion set of worker futures and their outcomes, the
  engine stats text, and fut.done() observations -- is supplied by an
  oracle record (IterInput), so the embedded loop is a deterministic
  function of the oracle.
- print statements are modelled as structured OutEvent values (one
  constructor per print site), so that output presence and content can be
  reasoned about without reproducing Python float formatting; time.sleep
  calls are likewise recorded as OutEvent.sleep events.
- Exceptions are modelled with Except; a failure escaping the main loop
  carries the error text together with the loop state and output trace at
  the point of failure (structure Fail).
- orjson.loads at the diagnostic sites is modelled as an oracle function
  String -> RedoRec (only the three fields the program reads are kept).
-/

namespace SzRedoer

/-- A redo record as far as the program reads it: `loggingID` accesses the
keys DATA_SOURCE, RECORD_ID and UMF_PROC of the parsed JSON object (a
missing key gives `none`; for UMF_PROC only its truthiness matters because
evaluation of line 41 never gets past the unbound name PARAMS). -/
structure RedoRec where
  DATA_SOURCE : Option String
  RECORD_ID : Option String
  UMF_PROC : Option String
deriving DecidableEq, Repr

/-- Python truthiness of `dict.get(...)` results as the source uses them:
absent keys give None (falsy) and an empty string is falsy. -/
def pyTruthy : Option String → Bool
  | none => false
  | some s => !(s == "")

/-- `loggingID` (lines 34-42).  The DATA_SOURCE/RECORD_ID branch returns
`f'{dsrc} : {rec_id}'`.  The UMF_PROC branch of the source evaluates
`umf_proc[PARAMS][0][PARAM][VALUE]` where PARAMS, PARAM and VALUE are
names never defined anywhere in the module, so reaching that branch raises
NameError; we embed that branch as the corresponding error value.  With
neither identifier shape present the function returns "UNKNOWN RECORD". -/
def loggingID (rec : RedoRec) : Except String String :=
  if pyTruthy rec.DATA_SOURCE && pyTruthy rec.RECORD_ID then
    Except.ok (rec.DATA_SOURCE.getD "" ++ " : " ++ rec.RECORD_ID.getD "")
  else if pyTruthy rec.UMF_PROC then
    Except.error "NameError: name PARAMS is not defined"
  else
    Except.ok "UNKNOWN RECORD"

/-- A Python value as needed to model line 26: `os.getenv` returns the raw
environment string when the variable is set and the supplied default
otherwise (the default here is the int 300; note the absence of an int()
conversion, in contrast to EMPTY_PAUSE_TIME on line 27). -/
inductive PyVal
  | int (n : ℤ)
  | str (s : String)
deriving DecidableEq, Repr

/-- `LONG_RECORD = os.getenv("LONG_RECORD", default=300)` (line 26). -/
def LONG_RECORD (env : Option String) : PyVal :=
  match env with
  | some s => PyVal.str s
  | none => PyVal.int 300

/-- Python's binary `/` applied to a value and an int, as used at line 166
(`LONG_RECORD / 2`): int / int is true division; str / int raises
TypeError. -/
def pyDiv : PyVal → ℤ → Except String ℚ
  | PyVal.int n, m => Except.ok ((n : ℚ) / (m : ℚ))
  | PyVal.str _, _ =>
      Except.error "TypeError: unsupported operand type(s) for /: str and int"

/-- `EMPTY_PAUSE_TIME = int(os.getenv("SENZING_REDO_SLEEP_TIME_IN_SECONDS",
default=60))` (line 27); the environment value is modelled after the int()
parse. -/
def EMPTY_PAUSE_TIME (env : Option ℤ) : ℤ :=
  match env with
  | some n => n
  | none => 60

/-- `INTERVAL = 1000` (line 25). -/
def INTERVAL : ℕ := 1000

/-- One entry of the futures dict (line 121): the key is the future (we
give each submitted future a unique id), the value is the tuple
`(msg, time.time())` recorded at submission (lines 221-224). -/
structure Task where
  id : ℕ
  msg : String
  startTime : ℚ
deriving DecidableEq, Repr

/-- One observable event of the loop: each constructor corresponds to one
print site of the source (stdout unless noted) or to a time.sleep call. -/
inductive OutEvent
  /-- `print(result)` for a truthy with-info result (lines 141-144). -/
  | infoPayload (s : String)
  /-- `print(f"Transliteration failure: {msg[TUPLE_MSG]}")` (line 149). -/
  | translitNotice (msg : String)
  /-- `print("Hit retry timeout")` (line 152). -/
  | retryNotice
  /-- `print(f"Processed {messages} redo, {speed} records per second")`
  (lines 161-163). -/
  | rateLine (messages : ℕ) (speed : ℤ)
  /-- `print(f"\n{response.decode()}\n")` after g2.stats (line 173). -/
  | statsDump (s : String)
  /-- `print(f'Long record ({duration/60:.1f} min): {loggingID(record)}')`
  (lines 183-185); carries duration/60 exactly (the one-decimal rendering
  is presentation only) and the identifier string. -/
  | longRecordLine (minutes : ℚ) (ident : String)
  /-- `print(f"All {executor._max_workers} threads are stuck ...")`
  (lines 187-189). -/
  | allStuckLine (cap : ℕ)
  /-- `print(f"No redo records available. Pausing for {EMPTY_PAUSE_TIME}
  seconds.")` (lines 215-217). -/
  | emptyNotice (pauseTime : ℤ)
  /-- `print(f'Still processing ({duration/60:.1f} min: {loggingID(record)}'`
  (lines 242-244). -/
  | stillProcessing (minutes : ℚ) (ident : String)
  /-- a line printed to stderr (lines 226, 232-235, the rendered error
  text). -/
  | errLine (s : String)
  /-- `time.sleep(q)` (lines 195, 198, 201, 205). -/
  | sleep (q : ℚ)
deriving DecidableEq, Repr

/-- The mutable state of the main loop (lines 107, 117, 121-122): the
futures registry, the empty-pause deadline (0 means unset, matching the
source's `if empty_pause:` truthiness test), the completion counter, the
rate-window timestamp `prevTime`, the long-record timestamp
`logCheckTime`, and a counter for allocating fresh future ids. -/
structure LoopSt where
  futures : List Task
  emptyPause : ℚ
  messages : ℕ
  prevTime : ℚ
  logCheckTime : ℚ
  nextId : ℕ
deriving DecidableEq, Repr

/-- A failure escaping the loop body: the rendered error text, plus the
loop state and the output trace at the point where the exception reached
the outer handler. -/
structure Fail where
  err : String
  st : LoopSt
  outs : List OutEvent
deriving DecidableEq, Repr

/-- The outcome of one completed future, i.e. what `fut.result()` does at
line 140: return the process_msg value (None, or the decoded with-info
response), or re-raise G2BadInputException (whose ExceptionCode we carry),
G2RetryTimeoutExceeded, or any other exception (fatal, carried as rendered
text). -/
inductive Outcome
  | success (result : Option String)
  | badInput (code : ℤ)
  | retryTimeout
  | fatal (err : String)
deriving DecidableEq, Repr

/-- Handling of one harvested future's outcome (lines 139-152): a truthy
result is printed; G2BadInputException prints the transliteration notice
only when the exception code is 7426 and is otherwise swallowed by the
bare `pass`; G2RetryTimeoutExceeded prints its notice; any other exception
propagates out of the loop. -/
def handleOutcome (msg : String) : Outcome → Except String (List OutEvent)
  | Outcome.success r =>
      Except.ok (if pyTruthy r then [OutEvent.infoPayload (r.getD "")] else [])
  | Outcome.badInput code =>
      Except.ok (if code = 7426 then [OutEvent.translitNotice msg] else [])
  | Outcome.retryTimeout => Except.ok [OutEvent.retryNotice]
  | Outcome.fatal e => Except.error e

/-- The rate-stats block (lines 156-164), evaluated after `messages += 1`:
on a multiple of INTERVAL, speed is int(INTERVAL / diff) for positive
diff (truncation = floor here since the quotient is positive) and the
sentinel -1 otherwise, and prevTime is reset to nowTime.  Returns the
events printed and the new prevTime. -/
def rateStats (messages : ℕ) (nowTime prevTime : ℚ) : List OutEvent × ℚ :=
  if messages % INTERVAL = 0 then
    let diff := nowTime - prevTime
    let speed : ℤ := if diff > 0 then ⌊(INTERVAL : ℚ) / diff⌋ else -1
    ([OutEvent.rateLine messages speed], nowTime)
  else ([], prevTime)

/-- Removal of the future with the given id from the registry
(`futures.pop(fut)`, line 138): returns the entry and the registry without
it, or none when the id is not registered. -/
def takeTask (i : ℕ) : List Task → Option (Task × List Task)
  | [] => none
  | t :: rest =>
    if t.id = i then some (t, rest)
    else
      match takeTask i rest with
      | none => none
      | some (t', rest') => some (t', t :: rest')

/-- Processing of one completed future after it has been popped from the
registry (lines 139-164): classify the outcome, then `messages += 1` and
the rate-stats block.  On a fatal outcome the exception propagates before
`messages += 1` is reached. -/
def harvestOne (nowTime : ℚ) (st : LoopSt) (t : Task) (oc : Outcome)
    (rest : List Task) : Except String (LoopSt × List OutEvent) :=
  match handleOutcome t.msg oc with
  | Except.error e => Except.error e
  | Except.ok outs1 =>
    let messages1 := st.messages + 1
    let pr := rateStats messages1 nowTime st.prevTime
    Except.ok
      ({ st with futures := rest, messages := messages1, prevTime := pr.2 },
       outs1 ++ pr.1)

/-- The harvest loop `for fut in done:` (lines 137-164) over the completed
set supplied by the oracle as (future id, outcome) pairs.  Ids not present
in the registry cannot occur in the source (the done set is a subset of
the dict's keys) and are skipped here for totality.  A fatal outcome
escapes with the state and outputs at that point (the failed task already
popped, its completion not counted). -/
def harvestList (nowTime : ℚ) :
    List (ℕ × Outcome) → LoopSt → List OutEvent →
      Except Fail (LoopSt × List OutEvent)
  | [], st, outs => Except.ok (st, outs)
  | (i, oc) :: rest, st, outs =>
    match takeTask i st.futures with
    | none => harvestList nowTime rest st outs
    | some (t, futures1) =>
      match harvestOne nowTime st t oc futures1 with
      | Except.error e =>
          Except.error { err := e, st := { st with futures := futures1 }, outs := outs }
      | Except.ok (st1, outs1) => harvestList nowTime rest st1 (outs ++ outs1)

/-- The per-task body of the long-record scan (lines 177-185): a future
not yet done whose age exceeds LONG_RECORD * 2 increments numStuck and
prints the long-record line (via orjson.loads and loggingID, whose
NameError on repair records propagates). -/
def stuckScanTask (longRecord nowTime : ℚ) (parse : String → RedoRec)
    (doneAt : ℕ → Bool) (t : Task) (numStuck : ℕ) :
    Except String (List OutEvent × ℕ) :=
  if doneAt t.id then Except.ok ([], numStuck)
  else
    if nowTime - t.startTime > longRecord * 2 then
      match loggingID (parse t.msg) with
      | Except.error e => Except.error e
      | Except.ok ident =>
          Except.ok
            ([OutEvent.longRecordLine ((nowTime - t.startTime) / 60) ident],
             numStuck + 1)
    else Except.ok ([], numStuck)

/-- The long-record scan `for fut, msg in futures.items():` (lines
175-189).  Note that the all-stuck check (lines 186-189) sits inside the
for loop but outside the not-done test, so it runs once per registry entry
against the running numStuck count.  (On the error path the lines already
printed before the exception are not retained here; no theorem below
relies on the output trace of a failing scan.) -/
def stuckScan (cap : ℕ) (longRecord nowTime : ℚ) (doneAt : ℕ → Bool)
    (parse : String → RedoRec) :
    List Task → ℕ → Except String (List OutEvent)
  | [], _ => Except.ok []
  | t :: rest, numStuck =>
    match stuckScanTask longRecord nowTime parse doneAt t numStuck with
    | Except.error e => Except.error e
    | Except.ok (outs1, numStuck1) =>
      let outs2 := if numStuck1 ≥ cap then [OutEvent.allStuckLine cap] else []
      match stuckScan cap longRecord nowTime doneAt parse rest numStuck1 with
      | Except.error e => Except.error e
      | Except.ok outs3 => Except.ok (outs1 ++ outs2 ++ outs3)

/-- Static configuration of the loop: `executor._max_workers` (cap), the
numeric value of LONG_RECORD (300 when the variable is unset; see the C6
theorem for what happens when it is set), EMPTY_PAUSE_TIME, and the JSON
parse used at the diagnostic sites. -/
structure Config where
  cap : ℕ
  longRecord : ℚ
  emptyPauseTime : ℤ
  parse : String → RedoRec

/-- One getRedoRecord call in the fill loop: an empty response (line 214,
with the time.time() of line 218), a record (with the time.time() of line
223), or a raised exception (lines 225-227). -/
inductive FetchEvent
  | empty (t : ℚ)
  | record (msg : String) (t : ℚ)
  | raise (e : String)
deriving DecidableEq, Repr

/-- The oracle for one loop iteration: nowTime is the time.time() of line
126; completions is the done set of the bounded wait (lines 128-132) with
each future's outcome; statsText is the g2.stats response (line 172);
doneAtScan gives fut.done() per future id at scan time (line 178); govern
is the governor's decision (line 191); pauseNow is the time.time() of the
empty-pause test (line 204); fetches gives the k-th getRedoRecord response
of this iteration's fill loop (lines 210-224). -/
structure IterInput where
  nowTime : ℚ
  completions : List (ℕ × Outcome)
  statsText : String
  doneAtScan : ℕ → Bool
  govern : ℚ
  pauseNow : ℚ
  fetches : ℕ → FetchEvent

/-- The long-record block (lines 166-189): when nowTime exceeds
logCheckTime + LONG_RECORD / 2, set logCheckTime to nowTime, print the
engine stats snapshot, and run the scan.  (In the source logCheckTime is
set and the stats printed before the scan; if the scan raises, those
effects have already happened -- the error path here does not retain them,
and no theorem below relies on the failing scan's trace.) -/
def logCheckPhase (cfg : Config) (nowTime : ℚ) (statsText : String)
    (doneAt : ℕ → Bool) (st : LoopSt) :
    Except String (LoopSt × List OutEvent) :=
  if nowTime > st.logCheckTime + cfg.longRecord / 2 then
    match stuckScan cfg.cap cfg.longRecord nowTime doneAt cfg.parse st.futures 0 with
    | Except.error e => Except.error e
    | Except.ok outs =>
        Except.ok ({ st with logCheckTime := nowTime },
          OutEvent.statsDump statsText :: outs)
  else Except.ok (st, [])

/-- The `if futures:` block (lines 127-189): with a non-empty registry,
wait for completions, harvest them, then run the long-record block; with
an empty registry the whole block -- including the long-record check -- is
skipped. -/
def drainPhase (cfg : Config) (inp : IterInput) (st : LoopSt) :
    Except Fail (LoopSt × List OutEvent) :=
  if st.futures.isEmpty then Except.ok (st, [])
  else
    match harvestList inp.nowTime inp.completions st [] with
    | Except.error f => Except.error f
    | Except.ok (st1, outs1) =>
      match logCheckPhase cfg inp.nowTime inp.statsText inp.doneAtScan st1 with
      | Except.error e => Except.error { err := e, st := st1, outs := outs1 }
      | Except.ok (st2, outs2) => Except.ok (st2, outs1 ++ outs2)

/-- The governor/capacity branching (lines 191-199): a negative decision
sleeps 1s and restarts the iteration; otherwise a full registry sleeps 1s
and restarts; otherwise the loop proceeds carrying the decision (line
200-201 then sleeps that long when it is positive). -/
inductive GovBranch
  | sleepRestart
  | proceed (pause : ℚ)
deriving DecidableEq, Repr

/-- Decision of lines 194-199 from the governor value and the registry
size. -/
def admission (pauseSeconds : ℚ) (futuresLen cap : ℕ) : GovBranch :=
  if pauseSeconds < 0 then GovBranch.sleepRestart
  else if futuresLen ≥ cap then GovBranch.sleepRestart
  else GovBranch.proceed pauseSeconds

/-- The fill loop `while len(futures) < executor._max_workers:` (lines
209-227), with fuel bounding the recursion (the caller passes
cap - len, which bounds the number of submissions the condition allows);
k indexes this iteration's getRedoRecord calls.  An empty response prints
the pause notice, sets the empty-pause deadline to that moment's
time.time() plus EMPTY_PAUSE_TIME and breaks; a record is submitted and
registered with its submission time; a raised exception is printed to
stderr and propagates. -/
def fillLoop (cfg : Config) (fetches : ℕ → FetchEvent) :
    ℕ → ℕ → LoopSt → List OutEvent → Except Fail (LoopSt × List OutEvent)
  | 0, _, st, outs => Except.ok (st, outs)
  | fuel + 1, k, st, outs =>
    if st.futures.length < cfg.cap then
      match fetches k with
      | FetchEvent.raise e =>
          Except.error { err := e, st := st, outs := outs ++ [OutEvent.errLine e] }
      | FetchEvent.empty t =>
          Except.ok
            ({ st with emptyPause := t + (cfg.emptyPauseTime : ℚ) },
             outs ++ [OutEvent.emptyNotice cfg.emptyPauseTime])
      | FetchEvent.record msg t =>
          fillLoop cfg fetches fuel (k + 1)
            { st with
                futures := st.futures ++ [{ id := st.nextId, msg := msg, startTime := t }],
                nextId := st.nextId + 1 }
            outs
    else Except.ok (st, outs)

/-- Entry into the fill loop with enough fuel for the while condition. -/
def fillPhase (cfg : Config) (inp : IterInput) (st : LoopSt)
    (outs : List OutEvent) : Except Fail (LoopSt × List OutEvent) :=
  fillLoop cfg inp.fetches (cfg.cap - st.futures.length) 0 st outs

/-- The empty-pause gate and the fill (lines 203-227): with a deadline set
(nonzero) and not yet reached, sleep 1s and restart; once reached, clear
it and fall through to the fill loop. -/
def afterGovern (cfg : Config) (inp : IterInput) (st : LoopSt)
    (outs : List OutEvent) : Except Fail (LoopSt × List OutEvent) :=
  if st.emptyPause ≠ 0 then
    if inp.pauseNow < st.emptyPause then Except.ok (st, outs ++ [OutEvent.sleep 1])
    else fillPhase cfg inp { st with emptyPause := 0 } outs
  else fillPhase cfg inp st outs

/-- One full iteration of `while True:` (lines 124-227): drain and
long-record block, then the governor/capacity branching (with the
1-second backoff sleeps and the positive-decision sleep), then the
empty-pause gate and the fill loop. -/
def loopIter (cfg : Config) (inp : IterInput) (st : LoopSt) :
    Except Fail (LoopSt × List OutEvent) :=
  match drainPhase cfg inp st with
  | Except.error f => Except.error f
  | Except.ok (st1, outs1) =>
    match admission inp.govern st1.futures.length cfg.cap with
    | GovBranch.sleepRestart => Except.ok (st1, outs1 ++ [OutEvent.sleep 1])
    | GovBranch.proceed p =>
        afterGovern cfg inp st1
          (outs1 ++ (if p > 0 then [OutEvent.sleep p] else []))

/-- The loop state just before the first iteration (lines 107, 117,
121-122): empty registry, no empty-pause deadline, zero completions, and
both timestamps at start-up time t0. -/
def initSt (t0 : ℚ) : LoopSt :=
  { futures := [], emptyPause := 0, messages := 0, prevTime := t0,
    logCheckTime := t0, nextId := 0 }

/-- n iterations of the main loop from the initial state, fed by a stream
of per-iteration oracles; a fatal iteration freezes the run in its error
state. -/
def runLoop (cfg : Config) (ins : ℕ → IterInput) (t0 : ℚ) :
    ℕ → Except Fail LoopSt
  | 0 => Except.ok (initSt t0)
  | n + 1 =>
    match runLoop cfg ins t0 n with
    | Except.error f => Except.error f
    | Except.ok st =>
      match loopIter cfg (ins n) st with
      | Except.error f => Except.error f
      | Except.ok (st1, _) => Except.ok st1

/-- The still-processing dump of the shutdown handler (lines 238-244): one
line per registry entry whose future is not done, with its age in minutes
and its loggingID; a NameError from loggingID aborts the dump at that
entry (returned as the second component, with the lines printed before
it). -/
def stillProcessingDump (nowTime : ℚ) (doneAt : ℕ → Bool)
    (parse : String → RedoRec) :
    List Task → List OutEvent × Option String
  | [] => ([], none)
  | t :: rest =>
    if doneAt t.id then stillProcessingDump nowTime doneAt parse rest
    else
      match loggingID (parse t.msg) with
      | Except.error e => ([], some e)
      | Except.ok ident =>
        let pr := stillProcessingDump nowTime doneAt parse rest
        (OutEvent.stillProcessing ((nowTime - t.startTime) / 60) ident :: pr.1, pr.2)

/-- The shutdown handler (lines 231-246): print the error to stderr, dump
the still-processing diagnostics, shut the executor down and exit(-1).
Returns (output trace, executor shutdown requested, exit status).  When
the dump itself raises (the loggingID NameError), the executor is still
shut down by the ThreadPoolExecutor context manager on the way out and the
outer handler (lines 248-251) prints the error and calls exit(-1), so the
last two components are the same on both paths. -/
def shutdownHandler (errName errMsg : String) (nowTime : ℚ)
    (doneAt : ℕ → Bool) (parse : String → RedoRec) (futures : List Task) :
    List OutEvent × Bool × ℤ :=
  let head := OutEvent.errLine (errName ++ ": Shutting down due to error: " ++ errMsg)
  let pr := stillProcessingDump nowTime doneAt parse futures
  match pr.2 with
  | none => (head :: pr.1, true, -1)
  | some e => (head :: pr.1 ++ [OutEvent.errLine e], true, -1)

/-- Output-event classifiers used to state which print sites produced a
trace's events. -/
def isStatsDump : OutEvent → Bool
  | OutEvent.statsDump _ => true
  | _ => false

/-- Classifier for the still-processing diagnostic of the shutdown
handler. -/
def isStillProcessing : OutEvent → Bool
  | OutEvent.stillProcessing _ _ => true
  | _ => false

/-- Classifier for the transliteration-failure notice. -/
def isTranslitNotice : OutEvent → Bool
  | OutEvent.translitNotice _ => true
  | _ => false

/-- Classifier for the retry-timeout notice. -/
def isRetryNotice : OutEvent → Bool
  | OutEvent.retryNotice => true
  | _ => false

/-- Classifier for the long-record diagnostic of the stuck-task scan. -/
def isLongRecordLine : OutEvent → Bool
  | OutEvent.longRecordLine _ _ => true
  | _ => false

/-- Whether an Except value is a success. -/
def exceptIsOk : Except String String → Bool
  | Except.ok _ => true
  | Except.error _ => false

/-- Concrete values used by the witness theorems below. -/
def recEx : RedoRec :=
  { DATA_SOURCE := some "CUSTOMERS", RECORD_ID := some "1001", UMF_PROC := none }

/-- A repair message as the engine produces it: no DATA_SOURCE/RECORD_ID,
a truthy UMF_PROC payload. -/
def repairRecEx : RedoRec :=
  { DATA_SOURCE := none, RECORD_ID := none, UMF_PROC := some "repair-payload" }

/-- A parse oracle mapping every message to recEx. -/
def parseEx : String → RedoRec := fun _ => recEx

/-- A two-worker configuration with the default LONG_RECORD (300) and
EMPTY_PAUSE_TIME (60). -/
def cfgEx : Config :=
  { cap := 2, longRecord := 300, emptyPauseTime := 60, parse := parseEx }

/-- An iteration oracle: time 1000, no completions, governor 0, record
source empty. -/
def inpA : IterInput :=
  { nowTime := 1000, completions := [], statsText := "S",
    doneAtScan := fun _ => false, govern := 0, pauseNow := 0,
    fetches := fun _ => FetchEvent.empty 1000 }

/-- A single in-flight task. -/
def task0 : Task := { id := 0, msg := "m0", startTime := 0 }

/-- A doneness oracle under which no future is done. -/
def doneNone : ℕ → Bool := fun _ => false

/-- A state with one in-flight task. -/
def stOne : LoopSt :=
  { futures := [task0], emptyPause := 0, messages := 0, prevTime := 0,
    logCheckTime := 0, nextId := 1 }

/-- A state with one in-flight task and 999 completions so far (the next
completion crosses the INTERVAL boundary). -/
def st999 : LoopSt :=
  { futures := [task0], emptyPause := 0, messages := 999, prevTime := 0,
    logCheckTime := 0, nextId := 1 }

/-- A state with an empty-pause deadline set at 1060. -/
def stPause : LoopSt :=
  { futures := [], emptyPause := 1060, messages := 0, prevTime := 0,
    logCheckTime := 0, nextId := 0 }

/-- An iteration oracle whose empty-pause test time has passed the 1060
deadline. -/
def inpLate : IterInput :=
  { nowTime := 2000, completions := [], statsText := "S",
    doneAtScan := fun _ => false, govern := 0, pauseNow := 2000,
    fetches := fun _ => FetchEvent.empty 2000 }

/-- An iteration oracle completing future 0 successfully at time 1000 with
a negative governor decision. -/
def inpDone : IterInput :=
  { nowTime := 1000, completions := [(0, Outcome.success none)], statsText := "S",
    doneAtScan := fun _ => false, govern := -1, pauseNow := 0,
    fetches := fun _ => FetchEvent.empty 1000 }

/-- Five single-use tasks for the five-record harvest scenario. -/
def st5 : LoopSt :=
  { futures :=
      [{ id := 0, msg := "m0", startTime := 0 }, { id := 1, msg := "m1", startTime := 0 },
       { id := 2, msg := "m2", startTime := 0 }, { id := 3, msg := "m3", startTime := 0 },
       { id := 4, msg := "m4", startTime := 0 }],
    emptyPause := 0, messages := 0, prevTime := 0, logCheckTime := 0, nextId := 5 }

/-- Five completions of which the third is a bad-input failure with the
transliteration code. -/
def comps5 : List (ℕ × Outcome) :=
  [(0, Outcome.success none), (1, Outcome.success none), (2, Outcome.badInput 7426),
   (3, Outcome.success none), (4, Outcome.success none)]

/-- Popping a registered future removes exactly one entry. -/
theorem takeTask_length {i : ℕ} :
    ∀ {l : List Task} {t : Task} {rest : List Task},
      takeTask i l = some (t, rest) → rest.length + 1 = l.length := by
  intro l
  induction l with
  | nil => intro t rest h; simp [takeTask] at h
  | cons a as ih =>
    intro t rest h
    simp only [takeTask] at h
    by_cases ha : a.id = i
    · rw [if_pos ha] at h
      simp only [Option.some.injEq, Prod.mk.injEq] at h
      obtain ⟨rfl, rfl⟩ := h
      rfl
    · rw [if_neg ha] at h
      cases hm : takeTask i as with
      | none => rw [hm] at h; cases h
      | some pr =>
        obtain ⟨t1, rest1⟩ := pr
        rw [hm] at h
        simp only [Option.some.injEq, Prod.mk.injEq] at h
        obtain ⟨rfl, rfl⟩ := h
        have := ih hm
        simp only [List.length_cons]
        omega

/-- Characterization of harvestOne on a non-fatal outcome. -/
theorem harvestOne_ok {nowT : ℚ} {st : LoopSt} {t : Task} {oc : Outcome}
    {rest : List Task} {o1 : List OutEvent}
    (h : handleOutcome t.msg oc = Except.ok o1) :
    harvestOne nowT st t oc rest =
      Except.ok
        ({ st with
            futures := rest, messages := st.messages + 1,
            prevTime := (rateStats (st.messages + 1) nowT st.prevTime).2 },
         o1 ++ (rateStats (st.messages + 1) nowT st.prevTime).1) := by
  simp [harvestOne, h]

/-- Inversion of a successful harvestOne. -/
theorem harvestOne_ok_inv {nowT : ℚ} {st : LoopSt} {t : Task} {oc : Outcome}
    {rest : List Task} {stA : LoopSt} {outsA : List OutEvent}
    (h : harvestOne nowT st t oc rest = Except.ok (stA, outsA)) :
    ∃ o1, handleOutcome t.msg oc = Except.ok o1 ∧
      stA = { st with
              futures := rest, messages := st.messages + 1,
              prevTime := (rateStats (st.messages + 1) nowT st.prevTime).2 } ∧
      outsA = o1 ++ (rateStats (st.messages + 1) nowT st.prevTime).1 := by
  cases hh : handleOutcome t.msg oc with
  | error e =>
    have : harvestOne nowT st t oc rest = Except.error e := by simp [harvestOne, hh]
    rw [this] at h
    cases h
  | ok o1 =>
    rw [harvestOne_ok hh] at h
    simp only [Except.ok.injEq, Prod.mk.injEq] at h
    exact ⟨o1, rfl, h.1.symm, h.2.symm⟩

/-- The rate-stats block prints only rateLine events. -/
theorem rateStats_countP {messages : ℕ} {nowT prevT : ℚ} {p : OutEvent → Bool}
    (hp : ∀ m s, p (OutEvent.rateLine m s) = false) :
    ((rateStats messages nowT prevT).1).countP p = 0 := by
  rw [rateStats]
  split
  · simp [List.countP_cons, hp]
  · simp

/-- A non-fatal outcome's own prints contain no stats dump and no
still-processing line. -/
theorem handleOutcome_countP {msg : String} {oc : Outcome} {o1 : List OutEvent}
    {p : OutEvent → Bool} (h : handleOutcome msg oc = Except.ok o1)
    (h1 : ∀ s, p (OutEvent.infoPayload s) = false)
    (h2 : ∀ s, p (OutEvent.translitNotice s) = false)
    (h3 : p OutEvent.retryNotice = false) :
    o1.countP p = 0 := by
  cases oc with
  | success r =>
    simp only [handleOutcome, Except.ok.injEq] at h
    subst h
    split
    · simp [List.countP_cons, h1]
    · simp
  | badInput code =>
    simp only [handleOutcome, Except.ok.injEq] at h
    subst h
    split
    · simp [List.countP_cons, h2]
    · simp
  | retryTimeout =>
    simp only [handleOutcome, Except.ok.injEq] at h
    subst h
    simp [List.countP_cons, h3]
  | fatal e => simp [handleOutcome] at h

/-- A successful harvest pass only shrinks the registry, does not touch
the long-record timestamp, and prints no stats dump. -/
theorem harvestList_ok_facts {nowT : ℚ} :
    ∀ {comps : List (ℕ × Outcome)} {st : LoopSt} {outs : List OutEvent}
      {st1 : LoopSt} {outs1 : List OutEvent},
      harvestList nowT comps st outs = Except.ok (st1, outs1) →
      st1.futures.length ≤ st.futures.length ∧
      st1.logCheckTime = st.logCheckTime ∧
      outs1.countP isStatsDump = outs.countP isStatsDump := by
  intro comps
  induction comps with
  | nil =>
    intro st outs st1 outs1 h
    simp only [harvestList, Except.ok.injEq, Prod.mk.injEq] at h
    obtain ⟨rfl, rfl⟩ := h
    exact ⟨le_refl _, rfl, rfl⟩
  | cons p rest ih =>
    intro st outs st1 outs1 h
    obtain ⟨i, oc⟩ := p
    simp only [harvestList] at h
    split at h
    · exact ih h
    · rename_i t futures1 hT
      split at h
      · cases h
      · rename_i stA outsA hO
        obtain ⟨o1, hh, rfl, rfl⟩ := harvestOne_ok_inv hO
        obtain ⟨hlen, hlog, hcnt⟩ := ih h
        refine ⟨?_, hlog, ?_⟩
        · have := takeTask_length hT
          simp only at hlen
          omega
        · rw [hcnt]
          have h1 : o1.countP isStatsDump = 0 :=
            handleOutcome_countP hh (fun s => rfl) (fun s => rfl) rfl
          have h2 : ((rateStats (st.messages + 1) nowT st.prevTime).1).countP isStatsDump = 0 :=
            rateStats_countP (fun m s => rfl)
          simp only [List.countP_append, h1, h2]
          omega

/-- The fill loop never touches the long-record timestamp and prints no
stats dump. -/
theorem fillLoop_ok_facts {cfg : Config} {f : ℕ → FetchEvent} :
    ∀ {fuel k : ℕ} {st : LoopSt} {outs : List OutEvent} {st1 : LoopSt}
      {outs1 : List OutEvent},
      fillLoop cfg f fuel k st outs = Except.ok (st1, outs1) →
      st1.logCheckTime = st.logCheckTime ∧
      outs1.countP isStatsDump = outs.countP isStatsDump := by
  intro fuel
  induction fuel with
  | zero =>
    intro k st outs st1 outs1 h
    simp only [fillLoop, Except.ok.injEq, Prod.mk.injEq] at h
    obtain ⟨rfl, rfl⟩ := h
    exact ⟨rfl, rfl⟩
  | succ fuel ih =>
    intro k st outs st1 outs1 h
    simp only [fillLoop] at h
    split at h
    · split at h
      · cases h
      · simp only [Except.ok.injEq, Prod.mk.injEq] at h
        obtain ⟨rfl, rfl⟩ := h
        exact ⟨rfl, by simp [List.countP_append, isStatsDump]⟩
      · have hrec := ih h
        exact hrec
    · simp only [Except.ok.injEq, Prod.mk.injEq] at h
      obtain ⟨rfl, rfl⟩ := h
      exact ⟨rfl, rfl⟩

/-- The fill loop keeps the registry within capacity: it only submits
while strictly below cap. -/
theorem fillLoop_length {cfg : Config} {f : ℕ → FetchEvent} :
    ∀ {fuel k : ℕ} {st : LoopSt} {outs : List OutEvent} {st1 : LoopSt}
      {outs1 : List OutEvent}, st.futures.length ≤ cfg.cap →
      fillLoop cfg f fuel k st outs = Except.ok (st1, outs1) →
      st1.futures.length ≤ cfg.cap := by
  intro fuel
  induction fuel with
  | zero =>
    intro k st outs st1 outs1 hle h
    simp only [fillLoop, Except.ok.injEq, Prod.mk.injEq] at h
    obtain ⟨rfl, rfl⟩ := h
    exact hle
  | succ fuel ih =>
    intro k st outs st1 outs1 hle h
    simp only [fillLoop] at h
    split at h
    · rename_i hlt
      split at h
      · cases h
      · simp only [Except.ok.injEq, Prod.mk.injEq] at h
        obtain ⟨rfl, rfl⟩ := h
        exact hle
      · refine ih ?_ h
        simp only [List.length_append, List.length_cons, List.length_nil]
        omega
    · simp only [Except.ok.injEq, Prod.mk.injEq] at h
      obtain ⟨rfl, rfl⟩ := h
      exact hle

/-- When the long-record deadline has passed and the block succeeds, the
timestamp is reset to now, the registry is untouched and the stats dump is
printed. -/
theorem logCheckPhase_pos {cfg : Config} {nowT : ℚ} {stats : String}
    {doneAt : ℕ → Bool} {st st1 : LoopSt} {outs1 : List OutEvent}
    (hc : nowT > st.logCheckTime + cfg.longRecord / 2)
    (h : logCheckPhase cfg nowT stats doneAt st = Except.ok (st1, outs1)) :
    st1.logCheckTime = nowT ∧ st1.futures = st.futures ∧
      1 ≤ outs1.countP isStatsDump := by
  rw [logCheckPhase, if_pos hc] at h
  split at h
  · cases h
  · simp only [Except.ok.injEq, Prod.mk.injEq] at h
    obtain ⟨rfl, rfl⟩ := h
    refine ⟨rfl, rfl, ?_⟩
    simp [List.countP_cons, isStatsDump]

/-- Before the long-record deadline the block does nothing. -/
theorem logCheckPhase_neg {cfg : Config} {nowT : ℚ} {stats : String}
    {doneAt : ℕ → Bool} {st : LoopSt}
    (hc : ¬ nowT > st.logCheckTime + cfg.longRecord / 2) :
    logCheckPhase cfg nowT stats doneAt st = Except.ok (st, []) := by
  rw [logCheckPhase, if_neg hc]

/-- The long-record block never changes the registry. -/
theorem logCheckPhase_futures {cfg : Config} {nowT : ℚ} {stats : String}
    {doneAt : ℕ → Bool} {st st1 : LoopSt} {outs1 : List OutEvent}
    (h : logCheckPhase cfg nowT stats doneAt st = Except.ok (st1, outs1)) :
    st1.futures = st.futures := by
  rw [logCheckPhase] at h
  split at h
  · split at h
    · cases h
    · simp only [Except.ok.injEq, Prod.mk.injEq] at h
      obtain ⟨rfl, rfl⟩ := h
      rfl
  · simp only [Except.ok.injEq, Prod.mk.injEq] at h
    obtain ⟨rfl, rfl⟩ := h
    rfl

/-- With an empty registry the whole drain block is skipped. -/
theorem drainPhase_empty {cfg : Config} {inp : IterInput} {st : LoopSt}
    (he : st.futures = []) :
    drainPhase cfg inp st = Except.ok (st, []) := by
  simp [drainPhase, he]

/-- The drain block only shrinks the registry. -/
theorem drainPhase_length {cfg : Config} {inp : IterInput} {st stA : LoopSt}
    {outsA : List OutEvent}
    (h : drainPhase cfg inp st = Except.ok (stA, outsA)) :
    stA.futures.length ≤ st.futures.length := by
  rw [drainPhase] at h
  split at h
  · simp only [Except.ok.injEq, Prod.mk.injEq] at h
    obtain ⟨rfl, rfl⟩ := h
    exact le_refl _
  · split at h
    · cases h
    · rename_i st1 outs1 hh
      split at h
      · cases h
      · rename_i st2 outs2 hl
        simp only [Except.ok.injEq, Prod.mk.injEq] at h
        obtain ⟨rfl, rfl⟩ := h
        have h1 := (harvestList_ok_facts hh).1
        have h2 := logCheckPhase_futures hl
        rw [h2]
        exact h1

/-- The post-governor phase never touches the long-record timestamp and
prints no stats dump. -/
theorem afterGovern_ok_facts {cfg : Config} {inp : IterInput} {st st1 : LoopSt}
    {outs outs1 : List OutEvent}
    (h : afterGovern cfg inp st outs = Except.ok (st1, outs1)) :
    st1.logCheckTime = st.logCheckTime ∧
    outs1.countP isStatsDump = outs.countP isStatsDump := by
  rw [afterGovern] at h
  split at h
  · split at h
    · simp only [Except.ok.injEq, Prod.mk.injEq] at h
      obtain ⟨rfl, rfl⟩ := h
      exact ⟨rfl, by simp [List.countP_append, isStatsDump]⟩
    · simp only [fillPhase] at h
      have hrec := fillLoop_ok_facts h
      exact hrec
  · simp only [fillPhase] at h
    exact fillLoop_ok_facts h

/-- The post-governor phase keeps the registry within capacity. -/
theorem afterGovern_length {cfg : Config} {inp : IterInput} {st st1 : LoopSt}
    {outs outs1 : List OutEvent} (hle : st.futures.length ≤ cfg.cap)
    (h : afterGovern cfg inp st outs = Except.ok (st1, outs1)) :
    st1.futures.length ≤ cfg.cap := by
  rw [afterGovern] at h
  split at h
  · split at h
    · simp only [Except.ok.injEq, Prod.mk.injEq] at h
      obtain ⟨rfl, rfl⟩ := h
      exact hle
    · simp only [fillPhase] at h
      refine fillLoop_length ?_ h
      exact hle
  · simp only [fillPhase] at h
    exact fillLoop_length hle h

/-- One loop iteration keeps the registry within capacity. -/
theorem loopIter_length {cfg : Config} {inp : IterInput} {st st1 : LoopSt}
    {outs1 : List OutEvent} (hle : st.futures.length ≤ cfg.cap)
    (h : loopIter cfg inp st = Except.ok (st1, outs1)) :
    st1.futures.length ≤ cfg.cap := by
  rw [loopIter] at h
  split at h
  · cases h
  · rename_i stA outsA hd
    have hA : stA.futures.length ≤ cfg.cap :=
      le_trans (drainPhase_length hd) hle
    split at h
    · simp only [Except.ok.injEq, Prod.mk.injEq] at h
      obtain ⟨rfl, rfl⟩ := h
      exact hA
    · exact afterGovern_length hA h

/-- C1: at every iteration boundary of the main loop's execution the
number of in-flight tasks held in the futures registry is at most the pool
capacity (executor._max_workers): the fill loop only submits while the
registry size is strictly below capacity, and harvesting only removes
entries. -/
theorem C1_registry_bounded (cfg : Config) (ins : ℕ → IterInput) (t0 : ℚ)
    (n : ℕ) (st : LoopSt) (h : runLoop cfg ins t0 n = Except.ok st) :
    st.futures.length ≤ cfg.cap := by
  induction n generalizing st with
  | zero =>
    simp only [runLoop, Except.ok.injEq] at h
    subst h
    simp [initSt]
  | succ n ih =>
    simp only [runLoop] at h
    cases hrun : runLoop cfg ins t0 n with
    | error f => simp [hrun] at h
    | ok st0 =>
      simp only [hrun] at h
      cases hiter : loopIter cfg (ins n) st0 with
      | error f => simp [hiter] at h
      | ok pr =>
        obtain ⟨st1, outs1⟩ := pr
        simp only [hiter, Except.ok.injEq] at h
        subst h
        exact loopIter_length (ih st0 hrun) hiter

/-- Witness for C1: a concrete one-iteration run stays within the
two-worker capacity. -/
theorem C1_registry_bounded_witness :
    runLoop cfgEx (fun _ => inpA) 0 1 =
      Except.ok { futures := [], emptyPause := 1060, messages := 0,
                  prevTime := 0, logCheckTime := 0, nextId := 0 } ∧
    ({ futures := [], emptyPause := 1060, messages := 0, prevTime := 0,
       logCheckTime := 0, nextId := 0 } : LoopSt).futures.length ≤ cfgEx.cap := by
  have hrun : runLoop cfgEx (fun _ => inpA) 0 1 =
      Except.ok { futures := [], emptyPause := 1060, messages := 0,
                  prevTime := 0, logCheckTime := 0, nextId := 0 } := by
    norm_num [runLoop, loopIter, drainPhase, admission, afterGovern, fillPhase,
      fillLoop, initSt, cfgEx, inpA]
  exact ⟨hrun, C1_registry_bounded cfgEx (fun _ => inpA) 0 1 _ hrun⟩

/-- C6 (code bug evidence): line 26 binds LONG_RECORD to the raw
environment string (os.getenv without the int() that line 27 applies to
its sibling), so with the variable set the threshold arithmetic
`LONG_RECORD / 2` at line 166 raises TypeError and the loop aborts instead
of using the configured number of seconds; only with the variable unset is
LONG_RECORD the number 300 and the numeric thresholds of the claim
effective. -/
theorem C6_long_record_env_string :
    pyDiv (LONG_RECORD (some "150")) 2 =
      Except.error "TypeError: unsupported operand type(s) for /: str and int" ∧
    pyDiv (LONG_RECORD none) 2 = Except.ok 150 ∧
    LONG_RECORD none = PyVal.int 300 ∧
    stuckScan 8 300 700 doneNone parseEx [task0] 0 =
      Except.ok [OutEvent.longRecordLine ((700 : ℚ) / 60) "CUSTOMERS : 1001"] ∧
    stuckScan 8 300 500 doneNone parseEx [task0] 0 = Except.ok [] := by
  have hl : loggingID (parseEx "m0") = Except.ok "CUSTOMERS : 1001" := rfl
  refine ⟨rfl, ?_, rfl, ?_, ?_⟩
  · norm_num [pyDiv, LONG_RECORD]
  · norm_num [stuckScan, stuckScanTask, doneNone, task0, hl]
  · norm_num [stuckScan, stuckScanTask, doneNone, task0, hl]

/-- C9 (code bug evidence): loggingID renders a (data-source, record-id)
record, but on a repair message (truthy UMF_PROC, no data-source pair) it
raises NameError because line 41 references the undefined names PARAMS,
PARAM and VALUE, instead of returning the repair identifier string the
claim describes. -/
theorem C9_loggingid_shapes :
    loggingID repairRecEx =
      Except.error "NameError: name PARAMS is not defined" ∧
    loggingID recEx = Except.ok "CUSTOMERS : 1001" :=
  ⟨rfl, rfl⟩

/-- C4 counterexample: a bad-input failure whose exception code is 1234
(not 7426) is skipped with no notice printed at all, refuting the claim
that a bad-input classified failure always logs a one-line notice
identifying the offending record. -/
theorem C4_counterexample :
    handleOutcome "m" (Outcome.badInput 1234) = Except.ok [] := by
  norm_num [handleOutcome]

/-- C4 (amended): a bad-input completion is handled as a recoverable
skip -- the registry entry is removed, the completion counter increments
and the harvest continues without aborting -- with the identifying notice
printed exactly when the exception code is 7426; a retry-timeout
completion prints its one-line notice, increments the counter and
continues; and in the five-record scenario where record #3 fails as bad
input the counter still reaches 5. -/
theorem C4_recoverable_skip (nowT : ℚ) (st : LoopSt) (i : ℕ) (t : Task)
    (rest : List Task) (code : ℤ) (outs0 : List OutEvent)
    (hT : takeTask i st.futures = some (t, rest)) :
    harvestList nowT [(i, Outcome.badInput code)] st outs0 =
      Except.ok
        ({ st with
            futures := rest, messages := st.messages + 1,
            prevTime := (rateStats (st.messages + 1) nowT st.prevTime).2 },
         outs0 ++ ((if code = 7426 then [OutEvent.translitNotice t.msg] else []) ++
           (rateStats (st.messages + 1) nowT st.prevTime).1)) ∧
    harvestList nowT [(i, Outcome.retryTimeout)] st outs0 =
      Except.ok
        ({ st with
            futures := rest, messages := st.messages + 1,
            prevTime := (rateStats (st.messages + 1) nowT st.prevTime).2 },
         outs0 ++ ([OutEvent.retryNotice] ++
           (rateStats (st.messages + 1) nowT st.prevTime).1)) ∧
    harvestList 0 comps5 st5 [] =
      Except.ok
        ({ futures := [], emptyPause := 0, messages := 5, prevTime := 0,
           logCheckTime := 0, nextId := 5 },
         [OutEvent.translitNotice "m2"]) := by
  refine ⟨?_, ?_, rfl⟩
  · have hho : handleOutcome t.msg (Outcome.badInput code) =
        Except.ok (if code = 7426 then [OutEvent.translitNotice t.msg] else []) := rfl
    simp only [harvestList, hT]
    rw [harvestOne_ok hho]
  · have hho : handleOutcome t.msg Outcome.retryTimeout =
        Except.ok [OutEvent.retryNotice] := rfl
    simp only [harvestList, hT]
    rw [harvestOne_ok hho]

/-- Witness for C4 at a concrete input: one in-flight task completing
with bad-input code 1234. -/
theorem C4_recoverable_skip_witness :
    harvestList 5 [(0, Outcome.badInput 1234)] stOne [] =
      Except.ok
        ({ stOne with
            futures := [], messages := stOne.messages + 1,
            prevTime := (rateStats (stOne.messages + 1) 5 stOne.prevTime).2 },
         [] ++ ((if (1234 : ℤ) = 7426 then [OutEvent.translitNotice task0.msg] else []) ++
           (rateStats (stOne.messages + 1) 5 stOne.prevTime).1)) :=
  (C4_recoverable_skip 5 stOne 0 task0 [] 1234 [] rfl).1

/-- C10: a bad-input classified failure with an exception code other than
7426 is skipped silently -- no notice of any kind is printed for it, the
completion counter still increments, the registry entry is removed and the
harvest continues without aborting. -/
theorem C10_silent_skip (nowT : ℚ) (st : LoopSt) (i : ℕ) (t : Task)
    (rest : List Task) (code : ℤ) (outs0 : List OutEvent)
    (hT : takeTask i st.futures = some (t, rest)) (hc : code ≠ 7426) :
    handleOutcome t.msg (Outcome.badInput code) = Except.ok [] ∧
    harvestList nowT [(i, Outcome.badInput code)] st outs0 =
      Except.ok
        ({ st with
            futures := rest, messages := st.messages + 1,
            prevTime := (rateStats (st.messages + 1) nowT st.prevTime).2 },
         outs0 ++ (rateStats (st.messages + 1) nowT st.prevTime).1) ∧
    ((rateStats (st.messages + 1) nowT st.prevTime).1).countP
      (fun o => isTranslitNotice o || isRetryNotice o) = 0 := by
  have hho : handleOutcome t.msg (Outcome.badInput code) = Except.ok [] := by
    simp [handleOutcome, hc]
  refine ⟨hho, ?_, rateStats_countP (fun m s => rfl)⟩
  simp only [harvestList, hT]
  rw [harvestOne_ok hho]
  simp only [List.nil_append]

/-- Witness for C10: bad-input code 9999 on one in-flight task. -/
theorem C10_silent_skip_witness :
    handleOutcome task0.msg (Outcome.badInput 9999) = Except.ok [] ∧
    harvestList 5 [(0, Outcome.badInput 9999)] stOne [] =
      Except.ok
        ({ stOne with
            futures := [], messages := stOne.messages + 1,
            prevTime := (rateStats (stOne.messages + 1) 5 stOne.prevTime).2 },
         [] ++ (rateStats (stOne.messages + 1) 5 stOne.prevTime).1) ∧
    ((rateStats (stOne.messages + 1) 5 stOne.prevTime).1).countP
      (fun o => isTranslitNotice o || isRetryNotice o) = 0 :=
  C10_silent_skip 5 stOne 0 task0 [] 9999 [] rfl (by norm_num)

/-- C2: the governor decision is honored per iteration: a negative value
sleeps 1s and restarts the iteration without submitting and independently
of the registry size; otherwise a registry at or above capacity sleeps 1s
and restarts; otherwise a positive value sleeps exactly that many seconds
before the fill phase; and a value of exactly 0 causes no sleep and
proceeds straight to the fill phase. -/
theorem C2_governor_honored (g : ℚ) (n m cap : ℕ) (cfg : Config)
    (inp : IterInput) (st st1 : LoopSt) (outs : List OutEvent) :
    (g < 0 → admission g n cap = GovBranch.sleepRestart) ∧
    (g < 0 → admission g n cap = admission g m cap) ∧
    (0 ≤ g → cap ≤ n → admission g n cap = GovBranch.sleepRestart) ∧
    (0 ≤ g → n < cap → admission g n cap = GovBranch.proceed g) ∧
    (inp.govern < 0 → drainPhase cfg inp st = Except.ok (st1, outs) →
      loopIter cfg inp st = Except.ok (st1, outs ++ [OutEvent.sleep 1])) ∧
    (0 ≤ inp.govern → cfg.cap ≤ st1.futures.length →
      drainPhase cfg inp st = Except.ok (st1, outs) →
      loopIter cfg inp st = Except.ok (st1, outs ++ [OutEvent.sleep 1])) ∧
    (0 < inp.govern → st1.futures.length < cfg.cap →
      drainPhase cfg inp st = Except.ok (st1, outs) →
      loopIter cfg inp st =
        afterGovern cfg inp st1 (outs ++ [OutEvent.sleep inp.govern])) ∧
    (inp.govern = 0 → st1.futures.length < cfg.cap →
      drainPhase cfg inp st = Except.ok (st1, outs) →
      loopIter cfg inp st = afterGovern cfg inp st1 outs) := by
  refine ⟨?_, ?_, ?_, ?_, ?_, ?_, ?_, ?_⟩
  · intro hg
    simp [admission, hg]
  · intro hg
    simp [admission, hg]
  · intro hg hn
    simp [admission, not_lt.mpr hg, hn]
  · intro hg hn
    simp [admission, not_lt.mpr hg, not_le.mpr hn]
  · intro hg hd
    simp only [loopIter, hd]
    simp [admission, hg]
  · intro hg hn hd
    simp only [loopIter, hd]
    simp [admission, not_lt.mpr hg, hn]
  · intro hg hn hd
    simp only [loopIter, hd]
    simp [admission, not_lt.mpr (le_of_lt hg), not_le.mpr hn, hg]
  · intro hg hn hd
    simp only [loopIter, hd]
    simp [admission, hg, not_le.mpr hn]

/-- Witness for C2: a negative decision restarts; a zero decision with a
non-full registry proceeds with no sleep. -/
theorem C2_governor_honored_witness :
    admission (-1) 0 2 = GovBranch.sleepRestart ∧
    loopIter cfgEx inpA (initSt 0) = afterGovern cfgEx inpA (initSt 0) [] := by
  constructor
  · exact (C2_governor_honored (-1) 0 0 2 cfgEx inpA (initSt 0) (initSt 0) []).1
      (by norm_num)
  · exact (C2_governor_honored 0 0 0 2 cfgEx inpA (initSt 0) (initSt 0) []).2.2.2.2.2.2.2
      rfl (by decide) (drainPhase_empty rfl)

/-- C8 counterexample: with a 3-second elapsed window the emitted rate is
int(1000/3) = 333, which differs from INTERVAL divided by the elapsed time
(1000/3), refuting the exact-division reading of the claim. -/
theorem C8_counterexample :
    rateStats 1000 3 0 = ([OutEvent.rateLine 1000 333], 3) ∧
    ((333 : ℚ) ≠ (INTERVAL : ℚ) / 3) := by
  constructor
  · norm_num [rateStats, INTERVAL, Int.floor_eq_iff]
  · norm_num [INTERVAL]

/-- C8 (amended): every time the completion counter crosses a multiple of
INTERVAL (1000), the harvest prints one throughput line carrying the
cumulative count and the integer truncation of INTERVAL divided by the
elapsed time since the last report (so a fixed 2-second gap reports
exactly 500), with -1 as sentinel when the elapsed time is zero or
negative, and the window timestamp is reset to now. -/
theorem C8_throughput (nowT : ℚ) (st : LoopSt) (i : ℕ) (t : Task)
    (rest : List Task) (outs0 : List OutEvent)
    (hT : takeTask i st.futures = some (t, rest))
    (hmod : (st.messages + 1) % INTERVAL = 0) :
    harvestList nowT [(i, Outcome.success none)] st outs0 =
      Except.ok
        ({ st with futures := rest, messages := st.messages + 1, prevTime := nowT },
         outs0 ++ [OutEvent.rateLine (st.messages + 1)
           (if nowT - st.prevTime > 0 then ⌊(INTERVAL : ℚ) / (nowT - st.prevTime)⌋
            else -1)]) ∧
    rateStats 1000 2 0 = ([OutEvent.rateLine 1000 500], 2) ∧
    rateStats 1000 7 7 = ([OutEvent.rateLine 1000 (-1)], 7) ∧
    rateStats 2000 3 5 = ([OutEvent.rateLine 2000 (-1)], 3) := by
  refine ⟨?_, ?_, ?_, ?_⟩
  · have hho : handleOutcome t.msg (Outcome.success none) = Except.ok [] := rfl
    simp only [harvestList, hT]
    rw [harvestOne_ok hho]
    simp [rateStats, hmod]
  · norm_num [rateStats, INTERVAL]
  · norm_num [rateStats, INTERVAL]
  · norm_num [rateStats, INTERVAL]

/-- Witness for C8: the thousandth completion with a 2-second window. -/
theorem C8_throughput_witness :
    harvestList 2 [(0, Outcome.success none)] st999 [] =
      Except.ok
        ({ st999 with futures := [], messages := st999.messages + 1, prevTime := 2 },
         [] ++ [OutEvent.rateLine (st999.messages + 1)
           (if (2 : ℚ) - st999.prevTime > 0 then
              ⌊(INTERVAL : ℚ) / ((2 : ℚ) - st999.prevTime)⌋
            else -1)]) :=
  (C8_throughput 2 st999 0 task0 [] [] rfl (by decide)).1

/-- C5: an empty record-source response during the fill loop prints the
pause notice, sets the empty-pause deadline to that moment's clock reading
plus EMPTY_PAUSE_TIME (default 60, from
SENZING_REDO_SLEEP_TIME_IN_SECONDS) and stops filling for the iteration;
on later iterations a set and unexpired deadline sleeps 1s and restarts
without submitting, and once the deadline is reached it is cleared and the
fill proceeds. -/
theorem C5_empty_pause (cfg : Config) (inp : IterInput) (st : LoopSt)
    (outs : List OutEvent) (fuel k : ℕ) (tq : ℚ) :
    EMPTY_PAUSE_TIME none = 60 ∧
    (st.futures.length < cfg.cap → inp.fetches k = FetchEvent.empty tq →
      fillLoop cfg inp.fetches (fuel + 1) k st outs =
        Except.ok ({ st with emptyPause := tq + (cfg.emptyPauseTime : ℚ) },
          outs ++ [OutEvent.emptyNotice cfg.emptyPauseTime])) ∧
    (st.futures.length < cfg.cap → inp.fetches 0 = FetchEvent.empty tq →
      fillPhase cfg inp st outs =
        Except.ok ({ st with emptyPause := tq + (cfg.emptyPauseTime : ℚ) },
          outs ++ [OutEvent.emptyNotice cfg.emptyPauseTime])) ∧
    (st.emptyPause ≠ 0 → inp.pauseNow < st.emptyPause →
      afterGovern cfg inp st outs = Except.ok (st, outs ++ [OutEvent.sleep 1])) ∧
    (st.emptyPause ≠ 0 → ¬ inp.pauseNow < st.emptyPause →
      afterGovern cfg inp st outs =
        fillPhase cfg inp { st with emptyPause := 0 } outs) := by
  refine ⟨rfl, ?_, ?_, ?_, ?_⟩
  · intro hlt hf
    simp only [fillLoop, if_pos hlt, hf]
  · intro hlt hf
    have hm : cfg.cap - st.futures.length = (cfg.cap - st.futures.length - 1) + 1 := by
      omega
    rw [fillPhase, hm]
    simp only [fillLoop, if_pos hlt, hf]
  · intro hep hlt
    rw [afterGovern, if_pos hep, if_pos hlt]
  · intro hep hlt
    rw [afterGovern, if_pos hep, if_neg hlt]

/-- Witness for C5: the default pause time, an empty fetch from a fresh
state, an unexpired deadline sleeping, and an expired deadline clearing. -/
theorem C5_empty_pause_witness :
    EMPTY_PAUSE_TIME none = 60 ∧
    fillPhase cfgEx inpA (initSt 0) [] =
      Except.ok ({ initSt 0 with emptyPause := 1000 + (cfgEx.emptyPauseTime : ℚ) },
        [] ++ [OutEvent.emptyNotice cfgEx.emptyPauseTime]) ∧
    afterGovern cfgEx inpA stPause [] = Except.ok (stPause, [] ++ [OutEvent.sleep 1]) ∧
    afterGovern cfgEx inpLate stPause [] =
      fillPhase cfgEx inpLate { stPause with emptyPause := 0 } [] := by
  refine ⟨(C5_empty_pause cfgEx inpA (initSt 0) [] 0 0 1000).1, ?_, ?_, ?_⟩
  · exact (C5_empty_pause cfgEx inpA (initSt 0) [] 0 0 1000).2.2.1 (by decide) rfl
  · exact (C5_empty_pause cfgEx inpA stPause [] 0 0 1000).2.2.2.1
      (by norm_num [stPause]) (by norm_num [stPause, inpA])
  · exact (C5_empty_pause cfgEx inpLate stPause [] 0 0 1000).2.2.2.2
      (by norm_num [stPause]) (by norm_num [stPause, inpLate])

/-- The stats-free count of the governor's optional positive-decision
sleep. -/
theorem sleepIte_countP (p : ℚ) :
    (if p > 0 then [OutEvent.sleep p] else []).countP isStatsDump = 0 := by
  split
  · simp [isStatsDump]
  · simp

/-- C7 counterexample: with an empty registry and the long-record deadline
exceeded (time 1000 against deadline 0 + 300/2), the iteration prints no
stats snapshot and leaves lastLongCheckTime at 0 instead of resetting it
to 1000, refuting the "regardless of whether the registry is empty" part
of the claim. -/
theorem C7_counterexample :
    (1000 : ℚ) > (initSt 0).logCheckTime + cfgEx.longRecord / 2 ∧
    inpA.nowTime = 1000 ∧
    (initSt 0).futures = [] ∧
    loopIter cfgEx inpA (initSt 0) =
      Except.ok ({ futures := [], emptyPause := 1060, messages := 0, prevTime := 0,
                   logCheckTime := 0, nextId := 0 }, [OutEvent.emptyNotice 60]) ∧
    [OutEvent.emptyNotice 60].countP isStatsDump = 0 ∧
    ((0 : ℚ) ≠ 1000) := by
  refine ⟨by norm_num [initSt, cfgEx], rfl, rfl, ?_, by simp [isStatsDump], by norm_num⟩
  norm_num [loopIter, drainPhase, admission, afterGovern, fillPhase, fillLoop,
    initSt, cfgEx, inpA]

/-- C7 (amended): in every successful main-loop iteration whose registry
was non-empty at the start, if the current time exceeds lastLongCheckTime
+ LONG_RECORD/2 then the long-record block ran: an engine-stats snapshot
is printed and lastLongCheckTime is reset to now (the stuck-task scan runs
inside the same block); with an empty registry at the start the whole
check is skipped -- no snapshot and no reset. -/
theorem C7_logcheck_cadence (cfg : Config) (inp : IterInput) (st st1 : LoopSt)
    (outs : List OutEvent) (hok : loopIter cfg inp st = Except.ok (st1, outs)) :
    (st.futures ≠ [] → inp.nowTime > st.logCheckTime + cfg.longRecord / 2 →
      st1.logCheckTime = inp.nowTime ∧ 1 ≤ outs.countP isStatsDump) ∧
    (st.futures = [] → st1.logCheckTime = st.logCheckTime ∧
      outs.countP isStatsDump = 0) := by
  constructor
  · intro hne hc
    rw [loopIter] at hok
    cases hd : drainPhase cfg inp st with
    | error f => rw [hd] at hok; cases hok
    | ok pr =>
      obtain ⟨stA, outsA⟩ := pr
      simp only [hd] at hok
      have hfacts : stA.logCheckTime = inp.nowTime ∧ 1 ≤ outsA.countP isStatsDump := by
        rw [drainPhase] at hd
        rw [if_neg (by simp [List.isEmpty_iff, hne])] at hd
        split at hd
        · cases hd
        · rename_i stH outsH hh
          split at hd
          · cases hd
          · rename_i stL outsL hl
            simp only [Except.ok.injEq, Prod.mk.injEq] at hd
            obtain ⟨rfl, rfl⟩ := hd
            have hpre := (harvestList_ok_facts hh).2.1
            have hcH : inp.nowTime > stH.logCheckTime + cfg.longRecord / 2 := by
              rw [hpre]; exact hc
            obtain ⟨hrt, _, hcL⟩ := logCheckPhase_pos hcH hl
            refine ⟨hrt, ?_⟩
            rw [List.countP_append]
            omega
      split at hok
      · simp only [Except.ok.injEq, Prod.mk.injEq] at hok
        obtain ⟨rfl, rfl⟩ := hok
        refine ⟨hfacts.1, ?_⟩
        rw [List.countP_append]
        have := hfacts.2
        omega
      · rename_i p
        obtain ⟨hlog, hcnt⟩ := afterGovern_ok_facts hok
        refine ⟨hlog.trans hfacts.1, ?_⟩
        rw [hcnt, List.countP_append, sleepIte_countP]
        have := hfacts.2
        omega
  · intro hem
    rw [loopIter] at hok
    simp only [drainPhase_empty hem] at hok
    split at hok
    · simp only [Except.ok.injEq, Prod.mk.injEq] at hok
      obtain ⟨rfl, rfl⟩ := hok
      exact ⟨rfl, by simp [isStatsDump]⟩
    · rename_i p
      obtain ⟨hlog, hcnt⟩ := afterGovern_ok_facts hok
      refine ⟨hlog, ?_⟩
      rw [hcnt, List.countP_append, sleepIte_countP]
      simp

/-- Witness for C7: a non-empty registry at time 1000 past the deadline
yields the stats snapshot and the timestamp reset. -/
theorem C7_logcheck_cadence_witness :
    loopIter cfgEx inpDone stOne =
      Except.ok ({ futures := [], emptyPause := 0, messages := 1, prevTime := 0,
                   logCheckTime := 1000, nextId := 1 },
        [OutEvent.statsDump "S", OutEvent.sleep 1]) ∧
    ({ futures := [], emptyPause := 0, messages := 1, prevTime := 0,
       logCheckTime := 1000, nextId := 1 } : LoopSt).logCheckTime = inpDone.nowTime ∧
    1 ≤ [OutEvent.statsDump "S", OutEvent.sleep 1].countP isStatsDump := by
  have hok : loopIter cfgEx inpDone stOne =
      Except.ok ({ futures := [], emptyPause := 0, messages := 1, prevTime := 0,
                   logCheckTime := 1000, nextId := 1 },
        [OutEvent.statsDump "S", OutEvent.sleep 1]) := by
    norm_num [loopIter, drainPhase, harvestList, takeTask, harvestOne, handleOutcome,
      pyTruthy, rateStats, logCheckPhase, stuckScan, admission, cfgEx, inpDone, stOne,
      task0, INTERVAL]
  refine ⟨hok, ?_⟩
  exact (C7_logcheck_cadence cfgEx inpDone stOne _ _ hok).1
    (by simp [stOne]) (by norm_num [stOne, cfgEx, inpDone])

/-- C3 counterexample: on shutdown with the single registry task already
done (completed but not yet harvested), no "still processing" line is
printed for it -- only the error header -- refuting the "every task still
in the registry" reading; the pool is still shut down and the exit status
is still non-zero. -/
theorem C3_counterexample :
    shutdownHandler "ValueError" "boom" 600 (fun _ => true) parseEx [task0] =
      ([OutEvent.errLine "ValueError: Shutting down due to error: boom"], true, -1) :=
  rfl

/-- The still-processing dump, when every pending record renders, succeeds
and prints exactly one line per not-yet-done registry entry. -/
theorem stillProcessingDump_count (nowT : ℚ) (doneAt : ℕ → Bool)
    (parse : String → RedoRec) :
    ∀ {futs : List Task},
      (∀ t ∈ futs, doneAt t.id = false →
        exceptIsOk (loggingID (parse t.msg)) = true) →
      (stillProcessingDump nowT doneAt parse futs).2 = none ∧
      ((stillProcessingDump nowT doneAt parse futs).1).countP isStillProcessing =
        (futs.filter (fun t => !(doneAt t.id))).length := by
  intro futs
  induction futs with
  | nil => intro hid; exact ⟨rfl, rfl⟩
  | cons t rest ih =>
    intro hid
    have hrest := ih (fun t' ht' => hid t' (List.mem_cons_of_mem _ ht'))
    cases hdone : doneAt t.id with
    | true =>
      simp only [stillProcessingDump, hdone, if_true]
      refine ⟨hrest.1, ?_⟩
      rw [hrest.2]
      simp [List.filter_cons, hdone]
    | false =>
      have hok := hid t (List.mem_cons_self t rest) hdone
      cases hl : loggingID (parse t.msg) with
      | error e => rw [hl] at hok; simp [exceptIsOk] at hok
      | ok s =>
        simp only [stillProcessingDump, hdone, hl, Bool.false_eq_true, if_false]
        refine ⟨hrest.1, ?_⟩
        rw [List.countP_cons]
        simp only [isStillProcessing]
        rw [hrest.2]
        simp [List.filter_cons, hdone]

/-- C3 (amended): on a fatal error the handler prints a still-processing
diagnostic (with its age) for every registry task whose future is not yet
done -- a task already completed but unharvested gets none -- provided
each pending record is identifiable (a repair-shaped record aborts the
dump with the C9 NameError), requests the pool shutdown and exits with a
non-zero status. -/
theorem C3_shutdown (errName errMsg : String) (nowT : ℚ) (doneAt : ℕ → Bool)
    (parse : String → RedoRec) (futs : List Task)
    (hid : ∀ t ∈ futs, doneAt t.id = false →
      exceptIsOk (loggingID (parse t.msg)) = true) :
    (shutdownHandler errName errMsg nowT doneAt parse futs).2.1 = true ∧
    (shutdownHandler errName errMsg nowT doneAt parse futs).2.2 ≠ 0 ∧
    ((shutdownHandler errName errMsg nowT doneAt parse futs).1).countP
        isStillProcessing
      = (futs.filter (fun t => !(doneAt t.id))).length := by
  obtain ⟨h2, hcnt⟩ := stillProcessingDump_count nowT doneAt parse hid
  simp only [shutdownHandler, h2]
  refine ⟨by trivial, by norm_num, ?_⟩
  rw [List.countP_cons]
  simp only [isStillProcessing]
  rw [hcnt]
  simp

/-- Witness for C3: one pending identifiable task yields exactly one
still-processing line, the shutdown request and exit status -1. -/
theorem C3_shutdown_witness :
    (shutdownHandler "ValueError" "boom" 600 doneNone parseEx [task0]).2.1 = true ∧
    (shutdownHandler "ValueError" "boom" 600 doneNone parseEx [task0]).2.2 ≠ 0 ∧
    ((shutdownHandler "ValueError" "boom" 600 doneNone parseEx [task0]).1).countP
        isStillProcessing
      = (([task0]).filter (fun t => !(doneNone t.id))).length :=
  C3_shutdown "ValueError" "boom" 600 doneNone parseEx [task0] (by decide)

end SzRedoer
